import Mathlib

/-!
# RAM-disk temporary directory of Pond on Darwin (`client/system/sys_darwin.go`)

The package keeps six package-level variables and offers `SafeTempDir` and
`Shutdown`.  The variables become the fields of `State`, every function takes
the state and returns the new one, and the outside world (the random source,
the three external commands of the setup and the opening of the README file)
is a `SetupEnv` value handed to each call.  Every command run and every file
operation is recorded in a list of `Event`s, oldest first.
-/

namespace Pond

/-- A non-nil Go `error` value as returned by `os/exec` or `os`. -/
structure OSError where
  text : String
deriving DecidableEq, Repr

/-- An interaction with the operating system: a command that is run (by
`exec.Command(..).CombinedOutput`, `exec.Command(..).Run` or `cmd.Run`) or an
operation on the README file. -/
inductive Event where
  | exec (name : String) (args : List String)
  | openFile (path : String)
  | write (path : String) (text : String)
  | close (path : String)
deriving DecidableEq, Repr

/-- The package-level variables of `sys_darwin.go`; `safeTempDirOnce` is the
has-run flag of the `sync.Once`. -/
structure State where
  safeTempDir : String
  safeTempDirErr : Option OSError
  safeTempDevice : String
  safeTempMounted : Bool
  safeTempDirOnce : Bool
  safeTempVolumeName : String
deriving DecidableEq, Repr

/-- The zero values the variables have when the process starts. -/
def State.init : State :=
  { safeTempDir := ""
    safeTempDirErr := none
    safeTempDevice := ""
    safeTempMounted := false
    safeTempDirOnce := false
    safeTempVolumeName := "" }

/-- The contents of `var randBytes [6]byte` after `rand.Reader.Read`. -/
structure RandBytes where
  b0 : Fin 256
  b1 : Fin 256
  b2 : Fin 256
  b3 : Fin 256
  b4 : Fin 256
  b5 : Fin 256
deriving DecidableEq, Repr

/-- What the outside world answers during one run of `setupSafeTempDir`:
the random bytes, the combined output and the error of `hdiutil attach`, the
error of `diskutil erasevolume`, and the error of `os.OpenFile` on the
README.  The output is taken as text, a sequence of Unicode code points. -/
structure SetupEnv where
  randBytes : RandBytes
  hdiUtilOutput : String
  hdiUtilErr : Option OSError
  diskutilErr : Option OSError
  openErr : Option OSError
deriving DecidableEq, Repr

/-- One lower-case hexadecimal digit, as `%x` prints it. -/
def hexDigit (n : Nat) : Char :=
  match n with
  | 0 => '0' | 1 => '1' | 2 => '2' | 3 => '3'
  | 4 => '4' | 5 => '5' | 6 => '6' | 7 => '7'
  | 8 => '8' | 9 => '9' | 10 => 'a' | 11 => 'b'
  | 12 => 'c' | 13 => 'd' | 14 => 'e' | _ => 'f'

/-- The two digits `%x` prints for one byte. -/
def hexByte (b : Fin 256) : List Char :=
  [hexDigit (b.val / 16), hexDigit (b.val % 16)]

/-- The verb `%x` applied to the byte array: two digits per byte, no separator. -/
def hexBytes (r : RandBytes) : String :=
  String.mk (hexByte r.b0 ++ hexByte r.b1 ++ hexByte r.b2 ++
    hexByte r.b3 ++ hexByte r.b4 ++ hexByte r.b5)

/-- Go's `unicode.IsSpace`. -/
def isSpace (c : Char) : Bool :=
  let n := c.toNat
  n == 0x09 || n == 0x0A || n == 0x0B || n == 0x0C || n == 0x0D || n == 0x20 ||
  n == 0x85 || n == 0xA0 || n == 0x1680 || (0x2000 ≤ n && n ≤ 0x200A) ||
  n == 0x2028 || n == 0x2029 || n == 0x202F || n == 0x205F || n == 0x3000

/-- Go's `strings.TrimSpace`: the text without its leading and trailing
white space. -/
def TrimSpace (s : String) : String :=
  String.mk ((s.data.dropWhile isSpace).reverse.dropWhile isSpace).reverse

/-- What `filepath.Join(dir, name)` gives for the directories built here: the
two parts with one separator between them (the volume label holds no
separator and no dot, so the cleaning step of `Join` changes nothing). -/
def Join (dir name : String) : String :=
  dir ++ "/" ++ name

/-- The text `fmt.Fprintf` writes to the README. -/
def readMeText (volumeName device : String) : String :=
  "Pond Safe Temp Directory\n\n" ++
  "This directory contains a RAM filesystem, created by Pond, so that temporary files\n" ++
  "can be safely used. Unless Pond is still running, it has somehow failed to cleanup\n" ++
  "after itself! Sorry! You can run the following commands to clean it up:\n\n" ++
  "$ cd ~\n" ++
  "$ umount \"/Volumes/" ++ volumeName ++ "\"\n" ++
  "$ hdiutil detach " ++ device ++ "\n"

/-- The function `setupSafeTempDir`: the new values of the variables and the
events, in order. -/
def setupSafeTempDir (env : SetupEnv) (s : State) : State × List Event :=
  let s := { s with safeTempVolumeName := "Pond RAM disk (" ++ hexBytes env.randBytes ++ ")" }
  let attach := Event.exec "hdiutil" ["attach", "-nomount", "ram://2048"]
  match env.hdiUtilErr with
  | some err => ({ s with safeTempDirErr := some err }, [attach])
  | none =>
    let device := TrimSpace env.hdiUtilOutput
    let s := { s with safeTempDevice := device }
    let erase := Event.exec "diskutil" ["erasevolume", "HFS+", s.safeTempVolumeName, device]
    match env.diskutilErr with
    | some err => ({ s with safeTempDirErr := some err }, [attach, erase])
    | none =>
      let s := { s with safeTempMounted := true }
      let s := { s with safeTempDir := "/Volumes/" ++ s.safeTempVolumeName }
      let readMe := Join s.safeTempDir "README"
      match env.openErr with
      | some err => ({ s with safeTempDirErr := some err }, [attach, erase, Event.openFile readMe])
      | none =>
        (s, [attach, erase, Event.openFile readMe,
             Event.write readMe (readMeText s.safeTempVolumeName device),
             Event.close readMe])

/-- The call `safeTempDirOnce.Do(setupSafeTempDir)`: the setup runs when the
guard has not fired yet, and the guard has fired afterwards. -/
def onceDo (env : SetupEnv) (s : State) : State × List Event :=
  if s.safeTempDirOnce then (s, [])
  else
    let r := setupSafeTempDir env s
    ({ r.1 with safeTempDirOnce := true }, r.2)

/-- The function `SafeTempDir`: the returned pair (path, error), the new
state and the events of the call. -/
def SafeTempDir (env : SetupEnv) (s : State) : (String × Option OSError) × State × List Event :=
  let r := onceDo env s
  match r.1.safeTempDirErr with
  | some err => (("", some err), r.1, r.2)
  | none => ((r.1.safeTempDir, none), r.1, r.2)

/-- The helper that runs a command with the standard streams of the process:
the event and the error of `cmd.Run()`. -/
def runCommandWithIO (name : String) (args : List String) (result : Option OSError) :
    Event × Option OSError :=
  (Event.exec name args, result)

/-- The function `Shutdown`; `umountErr` and `detachErr` are what the two
commands would return, which the function drops.  The test
`len(safeTempDevice) > 0` holds exactly when the text is not empty, whether
the length counts bytes or code points. -/
def Shutdown (umountErr detachErr : Option OSError) (s : State) : State × List Event :=
  let r1 : State × List Event :=
    if s.safeTempMounted then
      ({ s with safeTempMounted := false },
        [( runCommandWithIO "umount" ["/Volumes/" ++ s.safeTempVolumeName] umountErr).1])
    else (s, [])
  let r2 : State × List Event :=
    if r1.1.safeTempDevice.length > 0 then
      ({ r1.1 with safeTempDevice := "" },
        [( runCommandWithIO "hdiutil" ["detach", r1.1.safeTempDevice] detachErr).1])
    else (r1.1, [])
  (r2.1, r1.2 ++ r2.2)

/-! ## Sequences of calls -/

/-- What `SafeTempDir` returns once the setup has run: the last four lines of
the function, read off the state. -/
def answer (s : State) : String × Option OSError :=
  match s.safeTempDirErr with
  | some err => ("", some err)
  | none => (s.safeTempDir, none)

/-- Calls of `SafeTempDir` one after the other, each with its own answers of
the outside world: the returned pairs in order, the final state and all
events. -/
def callsSafeTempDir (s : State) :
    List SetupEnv → List (String × Option OSError) × State × List Event
  | [] => ([], s, [])
  | env :: envs =>
    let r := SafeTempDir env s
    let rest := callsSafeTempDir r.2.1 envs
    (r.1 :: rest.1, rest.2.1, r.2.2 ++ rest.2.2)

/-- Calls of `Shutdown` one after the other, each with its own outcomes of
the two commands: the final state and all events. -/
def callsShutdown (s : State) : List (Option OSError × Option OSError) → State × List Event
  | [] => (s, [])
  | o :: os =>
    let r := Shutdown o.1 o.2 s
    let rest := callsShutdown r.1 os
    (rest.1, r.2 ++ rest.2)

/-- A call of one of the two exported functions together with what the
outside world answers during it. -/
inductive Op where
  | safeTempDir (env : SetupEnv)
  | shutdown (umountErr detachErr : Option OSError)
deriving DecidableEq, Repr

/-- The state after one call and the events of the call. -/
def step (s : State) : Op → State × List Event
  | Op.safeTempDir env => (SafeTempDir env s).2
  | Op.shutdown umountErr detachErr => Shutdown umountErr detachErr s

/-- The state after a sequence of calls and all its events. -/
def run (s : State) : List Op → State × List Event
  | [] => (s, [])
  | op :: ops =>
    let r := step s op
    let rest := run r.1 ops
    (rest.1, r.2 ++ rest.2)

/-- The device-creation command `hdiutil attach ...`. -/
def isDeviceCreation : Event → Bool
  | Event.exec name args => name == "hdiutil" && args.head? == some "attach"
  | _ => false

/-- The format-and-mount command `diskutil erasevolume ...`. -/
def isMountAttempt : Event → Bool
  | Event.exec name args => name == "diskutil" && args.head? == some "erasevolume"
  | _ => false

/-- The unmount command `umount ...`. -/
def isUnmount : Event → Bool
  | Event.exec name _ => name == "umount"
  | _ => false

/-- The device-release command `hdiutil detach ...`. -/
def isRelease : Event → Bool
  | Event.exec name args => name == "hdiutil" && args.head? == some "detach"
  | _ => false

/-- An operation on the README file. -/
def isReadMe : Event → Bool
  | Event.exec _ _ => false
  | _ => true

/-- The property of a state that a recorded setup error goes with no mount
and no path, and that before the setup nothing is recorded. -/
def errorMeansNoPath (s : State) : Prop :=
  (s.safeTempDirOnce = false →
    s.safeTempDirErr = none ∧ s.safeTempMounted = false ∧ s.safeTempDir = "") ∧
  (s.safeTempDirErr ≠ none → s.safeTempMounted = false ∧ s.safeTempDir = "")

/-! ## Concrete answers of the outside world -/

/-- Every step succeeds; `hdiutil` prints the handle `dev7`. -/
def envHappy : SetupEnv :=
  { randBytes := { b0 := 0xab, b1 := 0x12, b2 := 0xcd, b3 := 0x00, b4 := 0x01, b5 := 0xff }
    hdiUtilOutput := "dev7\n"
    hdiUtilErr := none
    diskutilErr := none
    openErr := none }

/-- The command `hdiutil attach` fails. -/
def envCreateFails : SetupEnv :=
  { envHappy with
    hdiUtilOutput := "hdiutil: attach failed - Resource busy\n"
    hdiUtilErr := some { text := "resource busy" } }

/-- The command `hdiutil attach` prints the handle `dev9` and
`diskutil erasevolume` fails. -/
def envMountFails : SetupEnv :=
  { envHappy with
    hdiUtilOutput := "dev9\n"
    diskutilErr := some { text := "exit status 1" } }

/-- Both commands succeed and the README cannot be opened. -/
def envReadMeFails : SetupEnv :=
  { envHappy with openErr := some { text := "permission denied" } }

/-- Every step succeeds and `hdiutil attach` prints only a line end. -/
def envBlankOutput : SetupEnv :=
  { envHappy with hdiUtilOutput := "\n" }

/-- The command `hdiutil attach` succeeds printing only a line end and
`diskutil erasevolume` fails. -/
def envBlankMountFails : SetupEnv :=
  { envMountFails with hdiUtilOutput := "\n" }

/-! ## Lemmas on `Shutdown` -/

theorem length_pos_iff_ne_empty (t : String) : t.length > 0 ↔ t ≠ "" := by
  cases t with
  | mk l =>
    cases l with
    | nil => simp [String.length]
    | cons c cs =>
      simp [String.length]
      intro h
      exact absurd (congrArg String.data h) (by simp)

theorem Shutdown_state (u d : Option OSError) (s : State) :
    (Shutdown u d s).1 = { s with safeTempMounted := false, safeTempDevice := "" } := by
  unfold Shutdown
  cases s with
  | mk dir err dev mounted once vol =>
    by_cases hd : dev.length > 0
    · cases mounted <;> simp [hd]
    · have : dev = "" := by
        by_contra hne
        exact hd ((length_pos_iff_ne_empty dev).2 hne)
      cases mounted <;> simp [this]

theorem Shutdown_events (u d : Option OSError) (s : State) :
    (Shutdown u d s).2 =
      (if s.safeTempMounted then [Event.exec "umount" ["/Volumes/" ++ s.safeTempVolumeName]]
        else []) ++
      (if s.safeTempDevice ≠ "" then [Event.exec "hdiutil" ["detach", s.safeTempDevice]]
        else []) := by
  unfold Shutdown runCommandWithIO
  cases s with
  | mk dir err dev mounted once vol =>
    by_cases hd : dev = ""
    · subst hd
      cases mounted <;> simp
    · have hl : dev.length > 0 := (length_pos_iff_ne_empty dev).2 hd
      cases mounted <;> simp [hd, hl]

theorem Shutdown_clean (u d : Option OSError) (s : State)
    (hm : s.safeTempMounted = false) (hd : s.safeTempDevice = "") :
    Shutdown u d s = (s, []) := by
  apply Prod.ext
  · rw [Shutdown_state]
    cases s
    simp_all
  · rw [Shutdown_events]
    simp [hm, hd]

theorem callsShutdown_clean (s : State) (hm : s.safeTempMounted = false)
    (hd : s.safeTempDevice = "") (os : List (Option OSError × Option OSError)) :
    callsShutdown s os = (s, []) := by
  induction os with
  | nil => rfl
  | cons o os ih => simp [callsShutdown, Shutdown_clean o.1 o.2 s hm hd, ih]

/-! ## Lemmas on `SafeTempDir` -/

theorem SafeTempDir_answer (env : SetupEnv) (s : State) :
    (SafeTempDir env s).1 = answer (SafeTempDir env s).2.1 := by
  unfold SafeTempDir answer
  cases h : (onceDo env s).1.safeTempDirErr <;> simp [h]

theorem SafeTempDir_of_once (env : SetupEnv) (s : State) (h : s.safeTempDirOnce = true) :
    SafeTempDir env s = (answer s, s, []) := by
  unfold SafeTempDir onceDo answer
  cases he : s.safeTempDirErr <;> simp [h, he]

theorem SafeTempDir_state (env : SetupEnv) (s : State) (h : s.safeTempDirOnce = false) :
    (SafeTempDir env s).2.1 = { (setupSafeTempDir env s).1 with safeTempDirOnce := true } := by
  unfold SafeTempDir onceDo
  simp only [h]
  split <;> simp

theorem SafeTempDir_events (env : SetupEnv) (s : State) (h : s.safeTempDirOnce = false) :
    (SafeTempDir env s).2.2 = (setupSafeTempDir env s).2 := by
  unfold SafeTempDir onceDo
  simp only [h]
  split <;> simp

theorem SafeTempDir_once (env : SetupEnv) (s : State) :
    (SafeTempDir env s).2.1.safeTempDirOnce = true := by
  cases h : s.safeTempDirOnce
  · rw [SafeTempDir_state env s h]
  · rw [SafeTempDir_of_once env s h]
    exact h

theorem callsSafeTempDir_of_once (s : State) (h : s.safeTempDirOnce = true)
    (envs : List SetupEnv) :
    callsSafeTempDir s envs = (List.replicate envs.length (answer s), s, []) := by
  induction envs with
  | nil => rfl
  | cons env envs ih =>
    simp [callsSafeTempDir, SafeTempDir_of_once env s h, ih, List.replicate_succ]

theorem setupSafeTempDir_creations (env : SetupEnv) (s : State) :
    (setupSafeTempDir env s).2.countP isDeviceCreation = 1 := by
  unfold setupSafeTempDir
  cases env.hdiUtilErr <;> cases env.diskutilErr <;> cases env.openErr <;>
    simp [List.countP_cons, isDeviceCreation]

theorem setupSafeTempDir_mounts (env : SetupEnv) (s : State) :
    (setupSafeTempDir env s).2.countP isMountAttempt =
      if env.hdiUtilErr = none then 1 else 0 := by
  unfold setupSafeTempDir
  cases env.hdiUtilErr <;> cases env.diskutilErr <;> cases env.openErr <;>
    simp [List.countP_cons, isMountAttempt]

/-! ## Invariants along sequences of calls -/

theorem run_invariant (P : State → Prop) (ok : Op → Prop)
    (hstep : ∀ s op, ok op → P s → P (step s op).1) :
    ∀ (ops : List Op) (s : State), (∀ op ∈ ops, ok op) → P s → P (run s ops).1 := by
  intro ops
  induction ops with
  | nil => intro s _ hs; exact hs
  | cons op ops ih =>
    intro s hok hs
    simp only [run]
    exact ih _ (fun op' h' => hok op' (List.mem_cons_of_mem _ h'))
      (hstep s op (hok op (List.mem_cons_self _ _)) hs)

theorem answer_Shutdown (u d : Option OSError) (s : State) :
    answer (Shutdown u d s).1 = answer s := by
  rw [Shutdown_state]
  rfl

theorem step_of_once (s : State) (op : Op) (h : s.safeTempDirOnce = true) :
    (step s op).1.safeTempDirOnce = true ∧ answer (step s op).1 = answer s := by
  cases op with
  | safeTempDir env => simp [step, SafeTempDir_of_once env s h, h]
  | shutdown u d =>
    refine ⟨?_, answer_Shutdown u d s⟩
    simp only [step]
    rw [Shutdown_state]
    exact h

theorem run_of_once (s : State) (h : s.safeTempDirOnce = true) (ops : List Op) :
    (run s ops).1.safeTempDirOnce = true ∧ answer (run s ops).1 = answer s := by
  have := run_invariant (fun t => t.safeTempDirOnce = true ∧ answer t = answer s)
    (fun _ => True)
    (fun t op _ ht => ⟨(step_of_once t op ht.1).1, (step_of_once t op ht.1).2.trans ht.2⟩)
    ops s (fun _ _ => trivial) ⟨h, rfl⟩
  exact this

theorem step_errorMeansNoPath (s : State) (op : Op)
    (hop : ∀ env, op = Op.safeTempDir env → env.openErr = none)
    (hs : errorMeansNoPath s) : errorMeansNoPath (step s op).1 := by
  cases op with
  | shutdown u d =>
    simp only [step]
    rw [Shutdown_state]
    obtain ⟨h1, h2⟩ := hs
    constructor
    · intro ho
      have := h1 ho
      simp_all
    · intro he
      have := h2 he
      simp_all
  | safeTempDir env =>
    simp only [step]
    cases ho : s.safeTempDirOnce
    · rw [SafeTempDir_state env s ho]
      obtain ⟨herr, hm, hdir⟩ := hs.1 ho
      have hopen := hop env rfl
      unfold setupSafeTempDir
      cases h1 : env.hdiUtilErr <;> cases h2 : env.diskutilErr <;>
        simp [errorMeansNoPath, hopen, herr, hm, hdir]
    · rw [SafeTempDir_of_once env s ho]
      exact hs

theorem step_mounted_device (s : State) (op : Op)
    (hop : ∀ env, op = Op.safeTempDir env →
      env.hdiUtilErr = none → TrimSpace env.hdiUtilOutput ≠ "")
    (hs : s.safeTempMounted = true → s.safeTempDevice ≠ "") :
    (step s op).1.safeTempMounted = true → (step s op).1.safeTempDevice ≠ "" := by
  cases op with
  | shutdown u d =>
    simp only [step]
    rw [Shutdown_state]
    simp
  | safeTempDir env =>
    simp only [step]
    cases ho : s.safeTempDirOnce
    · rw [SafeTempDir_state env s ho]
      have hout := hop env rfl
      unfold setupSafeTempDir
      cases h1 : env.hdiUtilErr <;> cases h2 : env.diskutilErr <;> cases h3 : env.openErr <;>
        simp [h1] at hout <;> simp [hout] <;> exact hs
    · rw [SafeTempDir_of_once env s ho]
      exact hs

/-! ## The claims -/

/-- C1 (counterexample): when `hdiutil attach` fails on the first of two
`SafeTempDir` calls, one device creation is attempted and no mount at all, so
"exactly one device creation and one mount attempt" does not hold. -/
theorem calls_failed_creation_no_mount :
    ¬ ((callsSafeTempDir State.init [envCreateFails, envHappy]).2.2.countP isDeviceCreation = 1 ∧
       (callsSafeTempDir State.init [envCreateFails, envHappy]).2.2.countP isMountAttempt = 1) := by
  decide

/-- C1 (amended): any number N ≥ 1 of `SafeTempDir` calls from the initial
state, whatever the outside world answers, attempts device creation exactly
once and the mount at most once (once when device creation succeeded, never
when it failed), and every call returns the pair the first call returned. -/
theorem calls_setup_once (env : SetupEnv) (envs : List SetupEnv) :
    (callsSafeTempDir State.init (env :: envs)).2.2.countP isDeviceCreation = 1 ∧
    (callsSafeTempDir State.init (env :: envs)).2.2.countP isMountAttempt =
      (if env.hdiUtilErr = none then 1 else 0) ∧
    (callsSafeTempDir State.init (env :: envs)).1 =
      List.replicate (envs.length + 1) (SafeTempDir env State.init).1 := by
  have hrest := callsSafeTempDir_of_once (SafeTempDir env State.init).2.1
    (SafeTempDir_once env State.init) envs
  have hev := SafeTempDir_events env State.init rfl
  simp only [callsSafeTempDir, hrest, List.append_nil, hev]
  refine ⟨setupSafeTempDir_creations env _, setupSafeTempDir_mounts env _, ?_⟩
  rw [List.replicate_succ, ← SafeTempDir_answer]

/-- C4: for every state and every outcome of the two commands, K ≥ 1 calls of
`Shutdown` in a row issue at most one unmount and at most one device-release
command; the first call leaves `safeTempMounted` false and `safeTempDevice`
empty, and every later call issues no command and leaves the state as it is. -/
theorem Shutdown_idempotent (s : State) (o : Option OSError × Option OSError)
    (os : List (Option OSError × Option OSError)) :
    (callsShutdown s (o :: os)).2.countP isUnmount ≤ 1 ∧
    (callsShutdown s (o :: os)).2.countP isRelease ≤ 1 ∧
    (Shutdown o.1 o.2 s).1.safeTempMounted = false ∧
    (Shutdown o.1 o.2 s).1.safeTempDevice = "" ∧
    (∀ u d : Option OSError,
      Shutdown u d (Shutdown o.1 o.2 s).1 = ((Shutdown o.1 o.2 s).1, [])) ∧
    callsShutdown s (o :: os) = Shutdown o.1 o.2 s := by
  have hm : (Shutdown o.1 o.2 s).1.safeTempMounted = false := by rw [Shutdown_state]
  have hd : (Shutdown o.1 o.2 s).1.safeTempDevice = "" := by rw [Shutdown_state]
  have hall : callsShutdown s (o :: os) = Shutdown o.1 o.2 s := by
    simp [callsShutdown, callsShutdown_clean _ hm hd os]
  refine ⟨?_, ?_, hm, hd, fun u d => Shutdown_clean u d _ hm hd, hall⟩
  · rw [hall, Shutdown_events]
    by_cases h1 : s.safeTempMounted = true <;> by_cases h2 : s.safeTempDevice = "" <;>
      simp [h1, h2, List.countP_cons, isUnmount]
  · rw [hall, Shutdown_events]
    by_cases h1 : s.safeTempMounted = true <;> by_cases h2 : s.safeTempDevice = "" <;>
      simp [h1, h2, List.countP_cons, isRelease]

/-- C5: `Shutdown` in the initial state, whatever the two commands would
answer, issues no command at all and leaves every variable as it was; the
function has no error result. -/
theorem Shutdown_without_setup (u d : Option OSError) :
    Shutdown u d State.init = (State.init, []) :=
  Shutdown_clean u d State.init rfl rfl

/-- C7: when `hdiutil attach` fails with `e` on the first `SafeTempDir` call,
the call returns the empty path and `e`; the only event is that command (no
mount command, nothing done to the README); every later `SafeTempDir` call
returns the empty path and `e` again with no event and no change of state;
and `Shutdown` then issues no command and changes nothing. -/
theorem creation_failure_cached (env : SetupEnv) (e : OSError)
    (h : env.hdiUtilErr = some e) :
    (SafeTempDir env State.init).1 = ("", some e) ∧
    (SafeTempDir env State.init).2.2 =
      [Event.exec "hdiutil" ["attach", "-nomount", "ram://2048"]] ∧
    (SafeTempDir env State.init).2.2.countP isMountAttempt = 0 ∧
    (SafeTempDir env State.init).2.2.countP isReadMe = 0 ∧
    (∀ envs : List SetupEnv,
      callsSafeTempDir (SafeTempDir env State.init).2.1 envs =
        (List.replicate envs.length ("", some e), (SafeTempDir env State.init).2.1, [])) ∧
    (∀ u d : Option OSError,
      Shutdown u d (SafeTempDir env State.init).2.1 = ((SafeTempDir env State.init).2.1, [])) := by
  have hs : SafeTempDir env State.init =
      (("", some e),
       { State.init with
         safeTempVolumeName := "Pond RAM disk (" ++ hexBytes env.randBytes ++ ")"
         safeTempDirErr := some e
         safeTempDirOnce := true },
       [Event.exec "hdiutil" ["attach", "-nomount", "ram://2048"]]) := by
    simp [SafeTempDir, onceDo, setupSafeTempDir, State.init, h]
  rw [hs]
  refine ⟨rfl, rfl, by simp [List.countP_cons, isMountAttempt],
    by simp [List.countP_cons, isReadMe], ?_, ?_⟩
  · intro envs
    rw [callsSafeTempDir_of_once _ rfl envs]
    rfl
  · intro u d
    exact Shutdown_clean u d _ rfl rfl

/-- C7 (witness): the theorem at the answers of `envCreateFails`. -/
theorem creation_failure_cached_witness :
    envCreateFails.hdiUtilErr = some { text := "resource busy" } ∧
    (SafeTempDir envCreateFails State.init).1 = ("", some { text := "resource busy" }) ∧
    (SafeTempDir envCreateFails State.init).2.2 =
      [Event.exec "hdiutil" ["attach", "-nomount", "ram://2048"]] :=
  ⟨rfl, (creation_failure_cached envCreateFails { text := "resource busy" } rfl).1,
    (creation_failure_cached envCreateFails { text := "resource busy" } rfl).2.1⟩

/-- C2 (counterexample): when both commands succeed and the README cannot be
opened, the state after `SafeTempDir` holds a setup error while
`safeTempMounted` is true and `safeTempDir` is the mount path. -/
theorem readme_failure_keeps_mount :
    ¬ ((run State.init [Op.safeTempDir envReadMeFails]).1.safeTempDirErr ≠ none →
        (run State.init [Op.safeTempDir envReadMeFails]).1.safeTempMounted = false ∧
        (run State.init [Op.safeTempDir envReadMeFails]).1.safeTempDir = "") := by
  decide

/-- C2 (amended): in every state reached from the initial state by
`SafeTempDir` and `Shutdown` calls in which the README open did not fail,
whatever the external commands answer: if `safeTempDirErr` is non-nil then
`safeTempMounted` is false and `safeTempDir` is empty. -/
theorem error_means_no_path (ops : List Op)
    (hops : ∀ env, Op.safeTempDir env ∈ ops → env.openErr = none)
    (herr : (run State.init ops).1.safeTempDirErr ≠ none) :
    (run State.init ops).1.safeTempMounted = false ∧
    (run State.init ops).1.safeTempDir = "" := by
  have := run_invariant errorMeansNoPath
    (fun op => ∀ env, op = Op.safeTempDir env → env.openErr = none)
    step_errorMeansNoPath ops State.init
    (fun op hmem env heq => hops env (heq ▸ hmem))
    ⟨fun _ => ⟨rfl, rfl, rfl⟩, fun h => absurd rfl h⟩
  exact this.2 herr

/-- C2 (witness): a failed device creation followed by `Shutdown`. -/
theorem error_means_no_path_witness :
    (run State.init [Op.safeTempDir envCreateFails, Op.shutdown none none]).1.safeTempDirErr
      ≠ none ∧
    (run State.init [Op.safeTempDir envCreateFails, Op.shutdown none none]).1.safeTempMounted
      = false ∧
    (run State.init [Op.safeTempDir envCreateFails, Op.shutdown none none]).1.safeTempDir = "" :=
  ⟨by decide,
    error_means_no_path [Op.safeTempDir envCreateFails, Op.shutdown none none]
      (by
        intro env hmem
        simp only [List.mem_cons, List.mem_singleton, List.mem_nil_iff, or_false] at hmem
        rcases hmem with h | h
        · cases h
          rfl
        · cases h)
      (by decide)⟩

/-- C3 (counterexample): when `hdiutil attach` succeeds printing only a line
end and the mount succeeds, `safeTempMounted` is true while `safeTempDevice`
is empty. -/
theorem blank_output_mounted_without_device :
    (run State.init [Op.safeTempDir envBlankOutput]).1.safeTempMounted = true ∧
    (run State.init [Op.safeTempDir envBlankOutput]).1.safeTempDevice = "" := by
  decide

/-- C3 (amended): in every state reached from the initial state by
`SafeTempDir` and `Shutdown` calls in which the device-creation command,
whenever it succeeds, prints at least one character that is not white space
(its output when it fails is free, and so is everything else the external
commands answer): if `safeTempMounted` is true then `safeTempDevice` is not
empty. -/
theorem mounted_means_device (ops : List Op)
    (hops : ∀ env, Op.safeTempDir env ∈ ops →
      env.hdiUtilErr = none → TrimSpace env.hdiUtilOutput ≠ "")
    (hm : (run State.init ops).1.safeTempMounted = true) :
    (run State.init ops).1.safeTempDevice ≠ "" :=
  run_invariant (fun s => s.safeTempMounted = true → s.safeTempDevice ≠ "")
    (fun op => ∀ env, op = Op.safeTempDir env →
      env.hdiUtilErr = none → TrimSpace env.hdiUtilOutput ≠ "")
    step_mounted_device ops State.init
    (fun _ hmem env heq => hops env (heq ▸ hmem))
    (fun h => absurd h (by decide)) hm

/-- C3 (witness): a successful setup whose device handle is `dev7`. -/
theorem mounted_means_device_witness :
    (run State.init [Op.safeTempDir envHappy]).1.safeTempMounted = true ∧
    (run State.init [Op.safeTempDir envHappy]).1.safeTempDevice ≠ "" :=
  ⟨by decide,
    mounted_means_device [Op.safeTempDir envHappy]
      (by
        intro env hmem _
        simp only [List.mem_singleton] at hmem
        cases hmem
        decide)
      (by decide)⟩

/-- C6 (counterexample): device creation, mount and README open all succeed
and `SafeTempDir` returns the mount path, yet `hdiutil attach` printed only a
line end, the recorded handle is empty, and `Shutdown` issues the unmount
command alone: one command, not two. -/
theorem blank_output_single_command :
    envBlankOutput.hdiUtilErr = none ∧ envBlankOutput.diskutilErr = none ∧
    envBlankOutput.openErr = none ∧
    (SafeTempDir envBlankOutput State.init).1 = ("/Volumes/Pond RAM disk (ab12cd0001ff)", none) ∧
    (Shutdown none none (SafeTempDir envBlankOutput State.init).2.1).2 =
      [Event.exec "umount" ["/Volumes/Pond RAM disk (ab12cd0001ff)"]] := by
  decide

/-- C6 (amended): when device creation, mount and README open all succeed and
the handle printed by device creation is not empty, `SafeTempDir` returns
"/Volumes/" followed by the generated volume label with no error, and a
following `Shutdown` issues exactly two commands in this order: `umount` with
the returned path, then `hdiutil detach` with the recorded handle. -/
theorem happy_path (env : SetupEnv) (u d : Option OSError)
    (h1 : env.hdiUtilErr = none) (h2 : env.diskutilErr = none) (h3 : env.openErr = none)
    (h4 : TrimSpace env.hdiUtilOutput ≠ "") :
    (SafeTempDir env State.init).2.1.safeTempVolumeName =
      "Pond RAM disk (" ++ hexBytes env.randBytes ++ ")" ∧
    (SafeTempDir env State.init).1 =
      ("/Volumes/" ++ (SafeTempDir env State.init).2.1.safeTempVolumeName, none) ∧
    (SafeTempDir env State.init).2.1.safeTempDevice = TrimSpace env.hdiUtilOutput ∧
    (Shutdown u d (SafeTempDir env State.init).2.1).2 =
      [Event.exec "umount" [(SafeTempDir env State.init).1.1],
       Event.exec "hdiutil" ["detach", TrimSpace env.hdiUtilOutput]] := by
  rw [Shutdown_events]
  simp [SafeTempDir, onceDo, setupSafeTempDir, State.init, h1, h2, h3, h4]

/-- C6 (witness): the handle `dev7` and the label of `envHappy`. -/
theorem happy_path_witness :
    TrimSpace envHappy.hdiUtilOutput = "dev7" ∧
    (SafeTempDir envHappy State.init).1 = ("/Volumes/Pond RAM disk (ab12cd0001ff)", none) ∧
    (Shutdown none none (SafeTempDir envHappy State.init).2.1).2 =
      [Event.exec "umount" [(SafeTempDir envHappy State.init).1.1],
       Event.exec "hdiutil" ["detach", TrimSpace envHappy.hdiUtilOutput]] :=
  ⟨by decide, by decide,
    (happy_path envHappy none none rfl rfl rfl (by decide)).2.2.2⟩

/-- C8 (counterexample): `hdiutil attach` succeeds printing only a line end and
the mount fails; `SafeTempDir` returns the empty path and the error, and
`Shutdown` issues no command at all, so no device release. -/
theorem blank_output_no_release :
    envBlankMountFails.hdiUtilErr = none ∧
    (SafeTempDir envBlankMountFails State.init).1 = ("", some { text := "exit status 1" }) ∧
    (Shutdown none none (SafeTempDir envBlankMountFails State.init).2.1).2 = [] := by
  decide

/-- C8 (amended): when device creation succeeds with a handle `h` that is not
empty and the mount command fails, `SafeTempDir` returns the empty path and
the error, the handle is recorded and nothing is mounted, and a later
`Shutdown` issues exactly one command, `hdiutil detach h`, and no unmount. -/
theorem mount_failure_releases_device (env : SetupEnv) (e : OSError)
    (u d : Option OSError)
    (h1 : env.hdiUtilErr = none) (h2 : env.diskutilErr = some e)
    (h3 : TrimSpace env.hdiUtilOutput ≠ "") :
    (SafeTempDir env State.init).1 = ("", some e) ∧
    (SafeTempDir env State.init).2.1.safeTempDevice = TrimSpace env.hdiUtilOutput ∧
    (SafeTempDir env State.init).2.1.safeTempMounted = false ∧
    (Shutdown u d (SafeTempDir env State.init).2.1).2 =
      [Event.exec "hdiutil" ["detach", TrimSpace env.hdiUtilOutput]] := by
  rw [Shutdown_events]
  simp [SafeTempDir, onceDo, setupSafeTempDir, State.init, h1, h2, h3]

/-- C8 (witness): the handle `dev9` of `envMountFails`. -/
theorem mount_failure_releases_device_witness :
    TrimSpace envMountFails.hdiUtilOutput = "dev9" ∧
    (SafeTempDir envMountFails State.init).1 = ("", some { text := "exit status 1" }) ∧
    (Shutdown none none (SafeTempDir envMountFails State.init).2.1).2 =
      [Event.exec "hdiutil" ["detach", TrimSpace envMountFails.hdiUtilOutput]] :=
  ⟨by decide,
    (mount_failure_releases_device envMountFails { text := "exit status 1" } none none
      rfl rfl (by decide)).1,
    (mount_failure_releases_device envMountFails { text := "exit status 1" } none none
      rfl rfl (by decide)).2.2.2⟩

/-- C9: when device creation and mount succeed and opening the README fails
with `e`, the setup stops after the open (nothing is written), the volume is
mounted, and the first `SafeTempDir` call and every later one, after any calls
of `SafeTempDir` and `Shutdown` in between, return the empty path and `e`. -/
theorem readme_failure_is_setup_error (env : SetupEnv) (e : OSError)
    (h1 : env.hdiUtilErr = none) (h2 : env.diskutilErr = none) (h3 : env.openErr = some e) :
    (SafeTempDir env State.init).1 = ("", some e) ∧
    (SafeTempDir env State.init).2.1.safeTempMounted = true ∧
    (SafeTempDir env State.init).2.2 =
      [Event.exec "hdiutil" ["attach", "-nomount", "ram://2048"],
       Event.exec "diskutil" ["erasevolume", "HFS+",
         "Pond RAM disk (" ++ hexBytes env.randBytes ++ ")", TrimSpace env.hdiUtilOutput],
       Event.openFile
         (Join ("/Volumes/" ++ ("Pond RAM disk (" ++ hexBytes env.randBytes ++ ")")) "README")] ∧
    (∀ (ops : List Op) (later : SetupEnv),
      SafeTempDir later (run (SafeTempDir env State.init).2.1 ops).1 =
        (("", some e), (run (SafeTempDir env State.init).2.1 ops).1, [])) := by
  have hfirst : (SafeTempDir env State.init).1 = ("", some e) := by
    simp [SafeTempDir, onceDo, setupSafeTempDir, State.init, h1, h2, h3]
  refine ⟨hfirst, ?_, ?_, ?_⟩
  · simp [SafeTempDir, onceDo, setupSafeTempDir, State.init, h1, h2, h3]
  · simp [SafeTempDir, onceDo, setupSafeTempDir, State.init, h1, h2, h3]
  · intro ops later
    have hrun := run_of_once (SafeTempDir env State.init).2.1
      (SafeTempDir_once env State.init) ops
    rw [SafeTempDir_of_once later _ hrun.1, hrun.2, ← SafeTempDir_answer, hfirst]

/-- C9 (witness): the answers of `envReadMeFails`, with a `Shutdown` between
the first call and a later one. -/
theorem readme_failure_is_setup_error_witness :
    envReadMeFails.openErr = some { text := "permission denied" } ∧
    (SafeTempDir envReadMeFails State.init).1 = ("", some { text := "permission denied" }) ∧
    (SafeTempDir envReadMeFails State.init).2.1.safeTempMounted = true ∧
    (SafeTempDir envHappy
      (run (SafeTempDir envReadMeFails State.init).2.1 [Op.shutdown none none]).1).1 =
        ("", some { text := "permission denied" }) :=
  ⟨rfl,
    (readme_failure_is_setup_error envReadMeFails { text := "permission denied" }
      rfl rfl rfl).1,
    (readme_failure_is_setup_error envReadMeFails { text := "permission denied" }
      rfl rfl rfl).2.1,
    congrArg Prod.fst
      ((readme_failure_is_setup_error envReadMeFails { text := "permission denied" }
        rfl rfl rfl).2.2.2 [Op.shutdown none none] envHappy)⟩

/-- C10: `Shutdown` leaves `safeTempDir`, `safeTempDirErr`,
`safeTempVolumeName` and the once-guard as they were; and after a setup that
succeeded, a `SafeTempDir` call made after `Shutdown` runs no setup (no
event, no change of state) and returns the same path with a nil error. -/
theorem Shutdown_frame (s : State) (env later : SetupEnv) (u d : Option OSError) :
    ((Shutdown u d s).1.safeTempDir = s.safeTempDir ∧
     (Shutdown u d s).1.safeTempDirErr = s.safeTempDirErr ∧
     (Shutdown u d s).1.safeTempVolumeName = s.safeTempVolumeName ∧
     (Shutdown u d s).1.safeTempDirOnce = s.safeTempDirOnce) ∧
    ((SafeTempDir env State.init).1.2 = none →
      SafeTempDir later (Shutdown u d (SafeTempDir env State.init).2.1).1 =
        (((SafeTempDir env State.init).1.1, none),
          (Shutdown u d (SafeTempDir env State.init).2.1).1, [])) := by
  constructor
  · rw [Shutdown_state]
    exact ⟨rfl, rfl, rfl, rfl⟩
  · intro hok
    have honce : (Shutdown u d (SafeTempDir env State.init).2.1).1.safeTempDirOnce = true := by
      rw [Shutdown_state]
      exact SafeTempDir_once env State.init
    rw [SafeTempDir_of_once later _ honce, answer_Shutdown, ← SafeTempDir_answer]
    have : (SafeTempDir env State.init).1 = ((SafeTempDir env State.init).1.1, none) :=
      Prod.ext rfl hok
    rw [← this]

/-- C10 (witness): the successful setup of `envHappy`, then `Shutdown`, then
a call that would fail if the setup ran again. -/
theorem Shutdown_frame_witness :
    (SafeTempDir envHappy State.init).1.2 = none ∧
    SafeTempDir envCreateFails (Shutdown none none (SafeTempDir envHappy State.init).2.1).1 =
      (((SafeTempDir envHappy State.init).1.1, none),
        (Shutdown none none (SafeTempDir envHappy State.init).2.1).1, []) :=
  ⟨by decide,
    (Shutdown_frame State.init envHappy envCreateFails none none).2 (by decide)⟩

end Pond
